import Mathlib

/-!
Shallow embedding of the Inspection-Item Conclusion Verifier
(`python_backend/services/inspection_item_checker.py`), covering the pure
core that operates on the resolved row sequence: the conclusion calculator,
the validity check, the item/clause aggregator, the non-empty-field
validator, the serial-number / continuation-mark validator, and the final
result assembly, together with theorems checking the specification's claims
about them.
-/

namespace InspectionChecker

/-- Python `str.strip()`: drop whitespace from both ends (modelled over the
    character list so that it evaluates by kernel reduction). -/
def pyStrip (s : String) : String :=
  ⟨((s.data.dropWhile Char.isWhitespace).reverse.dropWhile Char.isWhitespace).reverse⟩

/-- Python `pat in s` (substring containment) on strings. -/
def containsSubstr (s pat : String) : Bool :=
  decide (pat.data <:+: s.data)

/-- `RequirementCheck` from `models/schemas.py`. -/
structure RequirementCheck where
  requirement_text : String
  inspection_result : String
  remark : String
deriving DecidableEq, Repr

/-- `ClauseCheck` from `models/schemas.py`. -/
structure ClauseCheck where
  clause_number : String
  requirements : List RequirementCheck
  conclusion : String
  expected_conclusion : String
  is_conclusion_correct : Bool
deriving DecidableEq, Repr

/-- `InspectionItemCheck` from `models/schemas.py`. -/
structure InspectionItemCheck where
  item_number : String
  item_name : String
  clauses : List ClauseCheck
  issues : List String
  status : String
deriving DecidableEq, Repr

/-- `InspectionTableRow` dataclass from `inspection_item_checker.py`. -/
structure InspectionTableRow where
  item_number : String
  item_name : String
  clause_number : String
  requirement_text : String
  inspection_result : String
  conclusion : String
  remark : String
  page_num : Nat := 0
  row_index : Nat := 0
  is_first_row_in_page : Bool := false
  original_item_number : String := ""
  has_continuation_mark : Bool := false
deriving DecidableEq, Repr

/-- A value stored in an `ErrorItem.details` dict entry. -/
inductive DetailValue where
  | str : String → DetailValue
  | num : Nat → DetailValue
  | bool : Bool → DetailValue
deriving DecidableEq, Repr

/-- `ErrorItem` from `models/schemas.py` (the fields this core populates). -/
structure ErrorItem where
  level : String
  message : String
  location : String
  details : List (String × DetailValue)
deriving DecidableEq, Repr

/-- The `error_code` entry of an error's details dict. -/
def ErrorItem.errorCode (e : ErrorItem) : String :=
  match e.details.lookup "error_code" with
  | some (DetailValue.str s) => s
  | _ => ""

/-- `InspectionItemCheckResult` from `models/schemas.py`. -/
structure InspectionItemCheckResult where
  has_table : Bool
  total_items : Nat
  total_clauses : Nat
  correct_conclusions : Nat
  incorrect_conclusions : Nat
  item_checks : List InspectionItemCheck
  cross_page_continuations : Nat
  errors : List ErrorItem
deriving DecidableEq, Repr

/-- Value of `SerialNumberErrorCode.NOT_CONTINUOUS`. -/
def NOT_CONTINUOUS : String := "SERIAL_NUMBER_ERROR_001"

/-- Value of `SerialNumberErrorCode.EMPTY`. -/
def SERIAL_EMPTY : String := "SERIAL_NUMBER_ERROR_002"

/-- Value of `ContinuationMarkErrorCode.MISSING`. -/
def MISSING : String := "CONTINUATION_MARK_ERROR_001"

/-- Value of `ContinuationMarkErrorCode.WRONG_POSITION`. -/
def WRONG_POSITION : String := "CONTINUATION_MARK_ERROR_002"

/-- Value of `NonEmptyFieldErrorCode.EMPTY_INSPECTION_RESULT`. -/
def EMPTY_INSPECTION_RESULT : String := "EMPTY_FIELD_001"

/-- Value of `NonEmptyFieldErrorCode.EMPTY_CONCLUSION`. -/
def EMPTY_CONCLUSION : String := "EMPTY_FIELD_002"

/-- Value of `NonEmptyFieldErrorCode.EMPTY_REMARK`. -/
def EMPTY_REMARK : String := "EMPTY_FIELD_003"

/-- Digit run to numeral, as Python `int` on a nonempty digit string. -/
def digitsToNat (cs : List Char) : Nat :=
  cs.foldl (fun n c => n * 10 + (c.toNat - 48)) 0

/-- First maximal run of digits in a character list (Python `re.search(r'\d+', s)`). -/
def firstDigitRun : List Char → List Char
  | [] => []
  | c :: cs => if c.isDigit then c :: cs.takeWhile Char.isDigit else firstDigitRun cs

/-- `_extract_number`: the first digit run as an integer, 0 when there is none. -/
def extractNumber (s : String) : Nat :=
  digitsToNat (firstDigitRun s.data)

/-- The `results` list built by `_calculate_expected_conclusion`
    (`[r.inspection_result for r in requirements]`), reduced over plain
    strings: priority 1 any result containing "不符合", priority 2 all
    results in the not-applicable set, priority 3 everything else. -/
def calcConclusion (results : List String) : String :=
  if results.any (fun r => r ≠ "" && containsSubstr r "不符合") then "不符合"
  else if results.all (fun r => r = "/" || r = "——" || (pyStrip r) = "") then "/"
  else "符合"

/-- `_calculate_expected_conclusion` over the clause's requirement list. -/
def calculateExpectedConclusion (requirements : List RequirementCheck) : String :=
  calcConclusion (requirements.map (fun r => r.inspection_result))

/-- `_is_conclusion_valid`. -/
def isConclusionValid (actual expected : String) : Bool :=
  if actual = expected then true
  else if expected = "/" && actual = "符合" then true
  else false

/-- The per-clause entry of the grouping dict in `_check_items`
    (`{'requirements': [...], 'conclusion': row.conclusion}`). -/
structure ClauseData where
  requirements : List RequirementCheck
  conclusion : String
deriving DecidableEq, Repr

/-- The per-item entry of the grouping dict in `_check_items`
    (`{'name': row.item_name, 'clauses': {...}}`). -/
structure ItemData where
  name : String
  clauses : List (String × ClauseData)
deriving DecidableEq, Repr

/-- The requirement record appended for each row in `_check_items`. -/
def mkRequirement (row : InspectionTableRow) : RequirementCheck :=
  { requirement_text := row.requirement_text
    inspection_result := row.inspection_result
    remark := row.remark }

/-- Adding one row to an item's clause dict: a missing clause key is created
    with the row's conclusion (an existing clause keeps its first-row
    conclusion — the `else: pass` branch), then the requirement is appended. -/
def addRowToClauses (row : InspectionTableRow) :
    List (String × ClauseData) → List (String × ClauseData)
  | [] => [(row.clause_number,
            { requirements := [mkRequirement row], conclusion := row.conclusion })]
  | (k, cd) :: rest =>
    if k = row.clause_number then
      (k, { cd with requirements := cd.requirements ++ [mkRequirement row] }) :: rest
    else
      (k, cd) :: addRowToClauses row rest

/-- Adding one row to the insertion-ordered item dict of `_check_items`. -/
def addRowToItems (items : List (String × ItemData)) (row : InspectionTableRow) :
    List (String × ItemData) :=
  match items with
  | [] => [(row.item_number,
            { name := row.item_name, clauses := addRowToClauses row [] })]
  | (k, it) :: rest =>
    if k = row.item_number then
      (k, { it with clauses := addRowToClauses row it.clauses }) :: rest
    else
      (k, it) :: addRowToItems rest row

/-- The grouping loop of `_check_items`: rows folded into the nested
    item → clause dict, preserving insertion order. -/
def groupRows (rows : List InspectionTableRow) : List (String × ItemData) :=
  rows.foldl addRowToItems []

/-- Stable insertion into a sorted list (the element goes before the first
    entry it is `le` to, hence after all equal keys already present). -/
def insertSorted (le : α → α → Bool) (x : α) : List α → List α
  | [] => [x]
  | y :: ys => if le x y then x :: y :: ys else y :: insertSorted le x ys

/-- Stable sort with a total `le`, matching Python's stable `sorted`. -/
def stableSort (le : α → α → Bool) : List α → List α
  | [] => []
  | x :: xs => insertSorted le x (stableSort le xs)

/-- The clause construction inside `_check_items`: expected conclusion from
    the requirement results, validity via `_is_conclusion_valid`. -/
def buildClauseCheck (p : String × ClauseData) : ClauseCheck :=
  let expected := calculateExpectedConclusion p.2.requirements
  { clause_number := p.1
    requirements := p.2.requirements
    conclusion := p.2.conclusion
    expected_conclusion := expected
    is_conclusion_correct := isConclusionValid p.2.conclusion expected }

/-- The per-item construction inside `_check_items`: clauses sorted by
    clause-number string, issues for incorrect clauses, derived status. -/
def buildItemCheck (p : String × ItemData) : InspectionItemCheck :=
  let sortedClauses := stableSort (fun a b => decide (a.1 ≤ b.1)) p.2.clauses
  let clauses := sortedClauses.map buildClauseCheck
  let issues := clauses.filterMap (fun c =>
    if c.is_conclusion_correct then none
    else some ("序号 " ++ p.1 ++ " 标准条款 " ++ c.clause_number ++
               ": 单项结论应为 '" ++ c.expected_conclusion ++
               "'，实际为 '" ++ c.conclusion ++ "'"))
  let status :=
    if clauses.any (fun c => !c.is_conclusion_correct) then "fail"
    else if issues.isEmpty then "pass"
    else "warning"
  { item_number := p.1
    item_name := p.2.name
    clauses := clauses
    issues := issues
    status := status }

/-- `_check_items`: group rows by item then clause, sort items by the
    numeric value embedded in the item number, sort clauses by string order,
    and check every clause's conclusion. -/
def checkItems (rows : List InspectionTableRow) : List InspectionItemCheck :=
  let items := groupRows rows
  let sortedItems :=
    stableSort (fun a b => decide (extractNumber a.1 ≤ extractNumber b.1)) items
  sortedItems.map buildItemCheck

/-- `_get_error_code`. -/
def getErrorCode (expected actual : String) : String :=
  if expected = "/" ∧ actual ≠ "/" then "CONCLUSION_MISMATCH_001"
  else if expected = "符合" ∧ actual ≠ "符合" then
    if actual = "不符合" then "CONCLUSION_MISMATCH_004"
    else "CONCLUSION_MISMATCH_002"
  else if expected = "不符合" ∧ actual ≠ "不符合" then "CONCLUSION_MISMATCH_003"
  else if expected ≠ "不符合" ∧ actual = "不符合" then "CONCLUSION_MISMATCH_004"
  else "CONCLUSION_MISMATCH_UNKNOWN"

/-- The error built by `_collect_inspection_errors` for one incorrect clause. -/
def mkConclusionError (item : InspectionItemCheck) (clause : ClauseCheck) : ErrorItem :=
  { level := "ERROR"
    message := "序号 " ++ item.item_number ++ " 标准条款 " ++ clause.clause_number ++
               ": 单项结论错误（期望: " ++ clause.expected_conclusion ++
               ", 实际: " ++ clause.conclusion ++ "）"
    location := "检验项目表格/" ++ item.item_name
    details := [("error_code", DetailValue.str (getErrorCode clause.expected_conclusion clause.conclusion)),
                ("item_number", DetailValue.str item.item_number),
                ("item_name", DetailValue.str item.item_name),
                ("clause_number", DetailValue.str clause.clause_number),
                ("expected", DetailValue.str clause.expected_conclusion),
                ("actual", DetailValue.str clause.conclusion)] }

/-- `_collect_inspection_errors`. -/
def collectInspectionErrors (item_checks : List InspectionItemCheck) : List ErrorItem :=
  item_checks.flatMap (fun item =>
    item.clauses.filterMap (fun clause =>
      if clause.is_conclusion_correct then none
      else some (mkConclusionError item clause)))

/-- The `current_key` string built in `_check_non_empty_fields`
    (`f"{row.item_number}_{row.clause_number}"`). -/
def rowKey (row : InspectionTableRow) : String :=
  row.item_number ++ "_" ++ row.clause_number

/-- Python `row.x.strip() if row.x else None`, used for the three
    `effective_*` values in `_check_non_empty_fields`. -/
def effectiveField (v : String) : Option String :=
  if v ≠ "" then some (pyStrip v) else none

/-- `_is_field_filled`. -/
def isFieldFilled (value : Option String) (allow_na : Bool) : Bool :=
  match value with
  | none => false
  | some v =>
    let stripped := (pyStrip v)
    if stripped = "" then false
    else if allow_na then
      if stripped = "—" ∨ stripped = "-" then false
      else true
    else true

/-- The title-row lookahead in `_check_non_empty_fields`: scan the rows after
    the current one; a row with the same key and a non-blank inspection
    result makes the current row a title row, and the scan stops at the
    first row whose key differs. -/
def hasLaterResultRow (key : String) : List InspectionTableRow → Bool
  | [] => false
  | r :: rs =>
    if rowKey r = key then
      if r.inspection_result ≠ "" ∧ (pyStrip r.inspection_result) ≠ "" then true
      else hasLaterResultRow key rs
    else false

/-- The error emitted for one empty field in `_check_non_empty_fields`. -/
def mkEmptyFieldError (row : InspectionTableRow) (idx : Nat)
    (code fieldName fieldLabel : String) : ErrorItem :=
  { level := "ERROR"
    message := "序号 " ++ row.item_number ++ " 标准条款 " ++ row.clause_number ++
               ": " ++ fieldLabel
    location := "检验项目表格/" ++ row.item_name ++ "/" ++ fieldName
    details := [("error_code", DetailValue.str code),
                ("item_number", DetailValue.str row.item_number),
                ("item_name", DetailValue.str row.item_name),
                ("clause_number", DetailValue.str row.clause_number),
                ("field_name", DetailValue.str fieldName),
                ("row_index", DetailValue.num idx)] }

/-- The main loop of `_check_non_empty_fields`, carrying
    `last_item_clause_key` and the running row index.  (The function's
    `key_page_count` precomputation is written but never read in the source,
    so it is omitted here.) -/
def checkNonEmptyFieldsAux (lastKey : Option String) (idx : Nat) :
    List InspectionTableRow → List ErrorItem
  | [] => []
  | row :: rest =>
    let currentKey := rowKey row
    let isFirstRowOfKey := some currentKey ≠ lastKey
    let effectiveResult := effectiveField row.inspection_result
    let effectiveConclusion := effectiveField row.conclusion
    let effectiveRemark := effectiveField row.remark
    let isTitleRow :=
      isFirstRowOfKey ∧
      (row.inspection_result = "" ∨ (pyStrip row.inspection_result) = "") ∧
      hasLaterResultRow currentKey rest = true
    let rowErrors :=
      if isTitleRow then []
      else
        (if isFieldFilled effectiveResult true then []
         else [mkEmptyFieldError row idx EMPTY_INSPECTION_RESULT "检验结果" "检验结果为空"]) ++
        (if isFieldFilled effectiveConclusion true then []
         else [mkEmptyFieldError row idx EMPTY_CONCLUSION "单项结论" "单项结论为空"]) ++
        (if isFieldFilled effectiveRemark true then []
         else [mkEmptyFieldError row idx EMPTY_REMARK "备注" "备注为空"])
    rowErrors ++ checkNonEmptyFieldsAux (some currentKey) (idx + 1) rest

/-- `_check_non_empty_fields`. -/
def checkNonEmptyFields (rows : List InspectionTableRow) : List ErrorItem :=
  checkNonEmptyFieldsAux none 0 rows

/-- The running state of `_check_serial_number_continuity`:
    `seen_numbers`, `last_page_num`, `last_item_number`. -/
structure SerialState where
  seen : List String
  lastPage : Nat
  lastItem : String
deriving DecidableEq, Repr

/-- Initial state of the serial-number scan. -/
def initialSerialState : SerialState :=
  { seen := [], lastPage := 0, lastItem := "" }

/-- The EMPTY serial-number error for one row. -/
def mkSerialEmptyError (row : InspectionTableRow) (idx : Nat) : ErrorItem :=
  { level := "ERROR"
    message := "第 " ++ toString (idx + 1) ++ " 行: 序号为空"
    location := "检验项目表格/第" ++ toString row.page_num ++ "页/行" ++ toString (idx + 1)
    details := [("error_code", DetailValue.str SERIAL_EMPTY),
                ("row_index", DetailValue.num idx),
                ("page_num", DetailValue.num row.page_num),
                ("item_name", DetailValue.str row.item_name)] }

/-- The NOT_CONTINUOUS error for a row whose new item number breaks the
    sequence. -/
def mkNotContinuousError (row : InspectionTableRow) (prevItem : String)
    (prevNum currentNum : Nat) : ErrorItem :=
  { level := "ERROR"
    message := "序号不连续：从 " ++ prevItem ++ " 跳到 " ++ row.item_number ++
               "（缺少 " ++ toString (prevNum + 1) ++ "）"
    location := "检验项目表格/第" ++ toString row.page_num ++ "页"
    details := [("error_code", DetailValue.str NOT_CONTINUOUS),
                ("expected", DetailValue.num (prevNum + 1)),
                ("actual", DetailValue.num currentNum),
                ("previous_item", DetailValue.str prevItem),
                ("current_item", DetailValue.str row.item_number),
                ("page_num", DetailValue.num row.page_num)] }

/-- The MISSING continuation-mark error for a cross-page row. -/
def mkMissingMarkError (row : InspectionTableRow) : ErrorItem :=
  { level := "ERROR"
    message := "跨页续表缺少标记：序号 " ++ row.item_number ++ " 跨页到第 " ++
               toString row.page_num ++ " 页，第一行应标记为\"续" ++
               row.item_number ++ "\"或\"续\""
    location := "检验项目表格/第" ++ toString row.page_num ++ "页/第一行"
    details := [("error_code", DetailValue.str MISSING),
                ("item_number", DetailValue.str row.item_number),
                ("page_num", DetailValue.num row.page_num),
                ("expected_mark", DetailValue.str ("续" ++ row.item_number)),
                ("actual_mark", DetailValue.str row.original_item_number)] }

/-- The WRONG_POSITION error for a continuation mark away from a page's
    first row. -/
def mkWrongPositionError (row : InspectionTableRow) (idx : Nat) : ErrorItem :=
  { level := "ERROR"
    message := "续字位置错误：序号 \"" ++ row.original_item_number ++
               "\" 出现在非第一行，\"续\"字只能出现在本页第一行"
    location := "检验项目表格/第" ++ toString row.page_num ++ "页/行" ++ toString (idx + 1)
    details := [("error_code", DetailValue.str WRONG_POSITION),
                ("item_number", DetailValue.str row.item_number),
                ("original_mark", DetailValue.str row.original_item_number),
                ("page_num", DetailValue.num row.page_num),
                ("row_index", DetailValue.num idx),
                ("is_first_row", DetailValue.bool row.is_first_row_in_page)] }

/-- One iteration of the `_check_serial_number_continuity` loop: the state
    update and the errors emitted for this row.  A blank item number emits
    the EMPTY error and `continue`s without touching the running state.
    (The loop's `page_first_item_numbers` dict is written but never read in
    the source, so it is omitted here.) -/
def serialStep (s : SerialState) (idx : Nat) (row : InspectionTableRow) :
    SerialState × List ErrorItem :=
  if row.item_number = "" ∨ (pyStrip row.item_number) = "" then
    (s, [mkSerialEmptyError row idx])
  else
    let currentNum := extractNumber row.item_number
    let isNew := ¬ s.seen.contains row.item_number
    let seen' := if s.seen.contains row.item_number then s.seen else s.seen ++ [row.item_number]
    let continuityErrors :=
      if isNew ∧ currentNum > 0 ∧ seen'.length > 1 then
        let prevItem := s.seen.getLastD ""
        let prevNum := extractNumber prevItem
        if prevNum > 0 ∧ currentNum ≠ prevNum + 1 then
          [mkNotContinuousError row prevItem prevNum currentNum]
        else []
      else []
    let missingErrors :=
      if row.page_num ≠ s.lastPage ∧ s.lastPage > 0 ∧
         row.item_number = s.lastItem ∧ row.is_first_row_in_page = true ∧
         row.has_continuation_mark = false then
        [mkMissingMarkError row]
      else []
    let wrongPositionErrors :=
      if row.has_continuation_mark = true ∧ row.is_first_row_in_page = false then
        [mkWrongPositionError row idx]
      else []
    ({ seen := seen', lastPage := row.page_num, lastItem := row.item_number },
     continuityErrors ++ missingErrors ++ wrongPositionErrors)

/-- The `_check_serial_number_continuity` loop over the remaining rows. -/
def checkSerialAux (s : SerialState) (idx : Nat) :
    List InspectionTableRow → List ErrorItem
  | [] => []
  | row :: rest =>
    let step := serialStep s idx row
    step.2 ++ checkSerialAux step.1 (idx + 1) rest

/-- `_check_serial_number_continuity`. -/
def checkSerialNumberContinuity (rows : List InspectionTableRow) : List ErrorItem :=
  if rows = [] then [] else checkSerialAux initialSerialState 0 rows

/-- `check_inspection_items` after table detection and parsing: the number
    of detected inspection tables and the resolved row sequence determine
    the result.  `numTables = 0` is the `if not tables` early return. -/
def checkInspectionItems (numTables : Nat) (all_rows : List InspectionTableRow) :
    InspectionItemCheckResult :=
  if numTables = 0 then
    { has_table := false
      total_items := 0
      total_clauses := 0
      correct_conclusions := 0
      incorrect_conclusions := 0
      item_checks := []
      cross_page_continuations := 0
      errors := [] }
  else
    let empty_field_errors := checkNonEmptyFields all_rows
    let serial_number_errors := checkSerialNumberContinuity all_rows
    let item_checks := checkItems all_rows
    let total_clauses := (item_checks.map (fun item => item.clauses.length)).sum
    let correct_conclusions :=
      (item_checks.map (fun item =>
        item.clauses.countP (fun clause => clause.is_conclusion_correct))).sum
    let incorrect_conclusions := total_clauses - correct_conclusions
    { has_table := true
      total_items := item_checks.length
      total_clauses := total_clauses
      correct_conclusions := correct_conclusions
      incorrect_conclusions := incorrect_conclusions
      item_checks := item_checks
      cross_page_continuations := numTables - 1
      errors := empty_field_errors ++ serial_number_errors ++
                collectInspectionErrors item_checks }

/-! ## Concrete scenario inputs -/

/-- Scenario A, first resolved row: item 27, clause 7.2.3, result "——",
    blank conclusion. -/
def scenarioA_row1 : InspectionTableRow :=
  { item_number := "27", item_name := "工作温度下的电介质强度", clause_number := "7.2.3"
    requirement_text := "要求1", inspection_result := "——", conclusion := "", remark := ""
    page_num := 1, row_index := 0, is_first_row_in_page := true }

/-- Scenario A, second resolved row (continuation of the same clause):
    result "符合要求", conclusion "符合". -/
def scenarioA_row2 : InspectionTableRow :=
  { item_number := "27", item_name := "工作温度下的电介质强度", clause_number := "7.2.3"
    requirement_text := "要求2", inspection_result := "符合要求", conclusion := "符合", remark := ""
    page_num := 1, row_index := 1 }

/-- Scenario C row: all three checked fields blank, no later row, so not a
    title row. -/
def scenarioC_row : InspectionTableRow :=
  { item_number := "1", item_name := "项目", clause_number := "2.1"
    requirement_text := "要求", inspection_result := "", conclusion := "", remark := ""
    page_num := 1 }

/-- A well-filled row used by the serial-number scenarios. -/
def serialRow (n : String) (pg : Nat) (first : Bool) : InspectionTableRow :=
  { item_number := n, item_name := "项目", clause_number := "2.1"
    requirement_text := "要求", inspection_result := "符合要求", conclusion := "符合", remark := "/"
    page_num := pg, is_first_row_in_page := first }

/-! ## Helper lemmas -/

theorem any_perm {α : Type} (p : α → Bool) {l1 l2 : List α} (h : l1.Perm l2) :
    l1.any p = l2.any p := by
  induction h with
  | nil => rfl
  | cons x h ih => simp [List.any_cons, ih]
  | swap x y l =>
    simp only [List.any_cons]
    rw [← Bool.or_assoc, Bool.or_comm (p y) (p x), Bool.or_assoc]
  | trans h1 h2 ih1 ih2 => rw [ih1, ih2]

theorem all_perm {α : Type} (p : α → Bool) {l1 l2 : List α} (h : l1.Perm l2) :
    l1.all p = l2.all p := by
  induction h with
  | nil => rfl
  | cons x h ih => simp [List.all_cons, ih]
  | swap x y l =>
    simp only [List.all_cons]
    rw [← Bool.and_assoc, Bool.and_comm (p y) (p x), Bool.and_assoc]
  | trans h1 h2 ih1 ih2 => rw [ih1, ih2]

/-- Item numbers 1, 2, 3 in sequence on one page. -/
def rowsOneTwoThree : List InspectionTableRow :=
  [serialRow "1" 1 true, serialRow "2" 1 false, serialRow "3" 1 false]

/-- Item numbers 1 then 3: a gap. -/
def rowsOneThree : List InspectionTableRow :=
  [serialRow "1" 1 true, serialRow "3" 1 false]

/-- Scenario D: item 5 on page 1, then item 5 as first row of page 2
    without a continuation mark. -/
def scenarioD_unmarked : List InspectionTableRow :=
  [serialRow "5" 1 true, serialRow "5" 2 true]

/-- Scenario D with the continuation mark present on page 2's first row. -/
def scenarioD_marked : List InspectionTableRow :=
  [serialRow "5" 1 true,
   { serialRow "5" 2 true with original_item_number := "续5", has_continuation_mark := true }]

theorem filter_ifsingle_neg (p : ErrorItem → Bool) (c : Prop) [Decidable c] (e : ErrorItem)
    (hp : p e = false) : (if c then [e] else []).filter p = [] := by
  split <;> simp [List.filter, hp]

theorem filter_ifsingle_pos (p : ErrorItem → Bool) (c : Prop) [Decidable c] (e : ErrorItem)
    (hp : p e = true) : (if c then [e] else []).filter p = if c then [e] else [] := by
  split <;> simp [List.filter, hp]

theorem filter_ifif_neg (p : ErrorItem → Bool) (c d : Prop) [Decidable c] [Decidable d]
    (e : ErrorItem) (hp : p e = false) :
    (if c then if d then [e] else [] else []).filter p = [] := by
  split
  · exact filter_ifsingle_neg p d e hp
  · rfl

/-! ## Claims -/

/-- C1 (code_bug evaluation): on the scenario A input the aggregator keeps
    the FIRST row's blank conclusion — `_check_items` initialises the clause
    conclusion from the group's first row and its `else` branch explicitly
    never overwrites it — so the single resulting clause has conclusion "",
    expected conclusion "符合", and `is_conclusion_correct = false`, while the
    spec and the repository's own `test_cross_row_conclusion.py` require the
    last non-blank conclusion "符合" and a correct verdict. -/
theorem scenarioA_keeps_first_row_conclusion :
    (checkItems [scenarioA_row1, scenarioA_row2]).map
        (fun item => item.clauses.map
          (fun c => (c.conclusion, c.expected_conclusion, c.is_conclusion_correct))) =
      [[("", "符合", false)]] := by
  decide

/-- C2: the conclusion calculator applies its three rules in strict priority
    order: any result containing "不符合" forces "不符合"; otherwise, all
    results in the not-applicable set (`"/"`, `"——"`, blank after trimming)
    force "/"; otherwise the result is "符合". -/
theorem calcConclusion_priority_order (results : List String) :
    ((∃ r ∈ results, "不符合".data <:+: r.data) → calcConclusion results = "不符合") ∧
    ((¬ ∃ r ∈ results, "不符合".data <:+: r.data) →
      (∀ r ∈ results, r = "/" ∨ r = "——" ∨ (pyStrip r) = "") →
      calcConclusion results = "/") ∧
    ((¬ ∃ r ∈ results, "不符合".data <:+: r.data) →
      (∃ r ∈ results, ¬ (r = "/" ∨ r = "——" ∨ (pyStrip r) = "")) →
      calcConclusion results = "符合") := by
  have hany : (results.any fun r => r ≠ "" && containsSubstr r "不符合") = true ↔
      ∃ r ∈ results, "不符合".data <:+: r.data := by
    simp only [List.any_eq_true, Bool.and_eq_true, decide_eq_true_eq, ne_eq, containsSubstr]
    constructor
    · rintro ⟨r, hr, _, hinf⟩
      exact ⟨r, hr, hinf⟩
    · rintro ⟨r, hr, hinf⟩
      refine ⟨r, hr, ?_, hinf⟩
      rintro rfl
      simpa using hinf.length_le
  have hall : (results.all fun r => r = "/" || r = "——" || (pyStrip r) = "") = true ↔
      ∀ r ∈ results, r = "/" ∨ r = "——" ∨ (pyStrip r) = "" := by
    simp [List.all_eq_true, or_assoc]
  refine ⟨fun h => ?_, fun h1 h2 => ?_, fun h1 h2 => ?_⟩
  · simp only [calcConclusion]
    rw [if_pos (hany.mpr h)]
  · simp only [calcConclusion]
    rw [if_neg (fun hc => h1 (hany.mp hc)), if_pos (hall.mpr h2)]
  · simp only [calcConclusion]
    rw [if_neg (fun hc => h1 (hany.mp hc)), if_neg]
    intro hc
    obtain ⟨r, hr, hnr⟩ := h2
    exact hnr (hall.mp hc r hr)

/-- Witness for C2: the three priority examples from the spec, obtained by
    applying `calcConclusion_priority_order` at concrete inputs. -/
theorem calcConclusion_priority_order_witness :
    calcConclusion ["不符合要求", "——", "——"] = "不符合" ∧
    calcConclusion ["——", "——"] = "/" ∧
    calcConclusion ["——", "100"] = "符合" :=
  ⟨(calcConclusion_priority_order ["不符合要求", "——", "——"]).1 (by decide),
   (calcConclusion_priority_order ["——", "——"]).2.1 (by decide) (by decide),
   (calcConclusion_priority_order ["——", "100"]).2.2 (by decide) (by decide)⟩

/-- C3: the validity check accepts exactly equality or the asymmetric
    exception (expected "/" with actual "符合"); the converse pair is
    rejected. -/
theorem isConclusionValid_iff :
    (∀ actual expected : String,
      isConclusionValid actual expected = true ↔
        (actual = expected ∨ (expected = "/" ∧ actual = "符合"))) ∧
    isConclusionValid "符合" "/" = true ∧
    isConclusionValid "/" "符合" = false := by
  refine ⟨fun actual expected => ?_, by decide, by decide⟩
  simp only [isConclusionValid]
  split_ifs with h1 h2
  · simp [h1]
  · simp only [Bool.and_eq_true, decide_eq_true_eq] at h2
    simp [h2]
  · simp only [Bool.and_eq_true, decide_eq_true_eq, not_and] at h2
    simp only [Bool.false_eq_true, false_iff]
    rintro (h | ⟨he, ha⟩)
    · exact h1 h
    · exact h2 he ha

/-- C7: a field value counts as filled exactly when its trimmed value is
    non-empty and differs from the two illegal single-dash values; the
    not-applicable markers "/" and "——" count as filled; a row with all
    three checked fields blank (and no title-row exemption) yields exactly
    the three empty-field error codes in order. -/
theorem isFieldFilled_iff :
    (∀ v : String,
      isFieldFilled (some v) true = true ↔
        ((pyStrip v) ≠ "" ∧ (pyStrip v) ≠ "-" ∧ (pyStrip v) ≠ "—")) ∧
    isFieldFilled (some "/") true = true ∧
    isFieldFilled (some "——") true = true ∧
    (checkNonEmptyFields [scenarioC_row]).map ErrorItem.errorCode =
      [EMPTY_INSPECTION_RESULT, EMPTY_CONCLUSION, EMPTY_REMARK] := by
  refine ⟨fun v => ?_, by decide, by decide, by decide⟩
  simp only [isFieldFilled]
  split_ifs with h1 h2
  · simp [h1]
  · rcases h2 with h2 | h2 <;> simp [h2]
  · push_neg at h2
    simp [h1, h2.1, h2.2]

/-- C4: when a new item number first appears and both it and the previous
    new item number have positive numeric values, the scan emits no
    NOT_CONTINUOUS error iff the new value is the previous plus one, and
    otherwise exactly the one error carrying expected = previous + 1 and the
    actual value; concretely, item numbers [1,2,3] produce no continuity
    error and [1,3] produce exactly one with expected 2 and actual 3. -/
theorem serialNumberContinuity_gap :
    (∀ (s : SerialState) (idx : Nat) (row : InspectionTableRow),
      pyStrip row.item_number ≠ "" →
      row.item_number ∉ s.seen →
      0 < extractNumber row.item_number →
      s.seen ≠ [] →
      0 < extractNumber (s.seen.getLastD "") →
      ((serialStep s idx row).2.filter (fun e => e.errorCode == NOT_CONTINUOUS)) =
        (if extractNumber row.item_number = extractNumber (s.seen.getLastD "") + 1 then []
         else [mkNotContinuousError row (s.seen.getLastD "")
                (extractNumber (s.seen.getLastD "")) (extractNumber row.item_number)])) ∧
    (∀ (row : InspectionTableRow) (prevItem : String) (prevNum currentNum : Nat),
      (mkNotContinuousError row prevItem prevNum currentNum).details.lookup "expected" =
          some (DetailValue.num (prevNum + 1)) ∧
      (mkNotContinuousError row prevItem prevNum currentNum).details.lookup "actual" =
          some (DetailValue.num currentNum)) ∧
    (checkSerialNumberContinuity rowsOneTwoThree).filter
        (fun e => e.errorCode == NOT_CONTINUOUS) = [] ∧
    ((checkSerialNumberContinuity rowsOneThree).filter
        (fun e => e.errorCode == NOT_CONTINUOUS)).map
        (fun e => (e.details.lookup "expected", e.details.lookup "actual")) =
      [(some (DetailValue.num 2), some (DetailValue.num 3))] := by
  refine ⟨?_, fun row prevItem prevNum currentNum => ⟨rfl, rfl⟩, by decide, by decide⟩
  intro s idx row htrim hnew hcur hne hprev
  have hblank : ¬ (row.item_number = "" ∨ pyStrip row.item_number = "") := by
    rintro (h | h)
    · exact htrim (by simp [h, pyStrip])
    · exact htrim h
  have hc : s.seen.contains row.item_number = false := by
    simpa using hnew
  have hlen : (s.seen ++ [row.item_number]).length > 1 := by
    have := List.length_pos.mpr hne
    simp only [List.length_append, List.length_cons, List.length_nil]
    omega
  simp only [serialStep, if_neg hblank, hc, Bool.false_eq_true, not_false_eq_true,
    true_and, if_true, if_false]
  rw [if_pos ⟨hcur, hlen⟩, List.filter_append, List.filter_append,
    filter_ifsingle_neg _ _ (mkMissingMarkError row) (by rfl),
    filter_ifsingle_neg _ _ (mkWrongPositionError row idx) (by rfl),
    List.append_nil, List.append_nil]
  by_cases heq : extractNumber row.item_number = extractNumber (s.seen.getLastD "") + 1
  · rw [if_pos heq, if_neg (fun hand => hand.2 heq), List.filter_nil]
  · rw [if_neg heq, if_pos ⟨hprev, heq⟩]
    rfl

/-- Witness for C4: applying the general gap rule at the concrete state
    reached after row "1" and the row carrying item number "3". -/
theorem serialNumberContinuity_gap_witness :
    ((serialStep { seen := ["1"], lastPage := 1, lastItem := "1" } 1
        (serialRow "3" 1 false)).2.filter
        (fun e => e.errorCode == NOT_CONTINUOUS)) =
      [mkNotContinuousError (serialRow "3" 1 false) "1" 1 3] := by
  have h := serialNumberContinuity_gap.1
    { seen := ["1"], lastPage := 1, lastItem := "1" } 1 (serialRow "3" 1 false)
    (by decide) (by decide) (by decide) (by decide) (by decide)
  simpa using h

/-- C5: when the page changes between consecutive scanned rows, the new row
    repeats the previous row's item number, and it is the first row of its
    page, a missing continuation mark yields exactly one MISSING error citing
    the expected marker "续<N>", and a present mark yields none; concretely,
    scenario D unmarked gives exactly one MISSING error (expected mark "续5")
    and scenario D marked gives zero continuation errors. -/
theorem continuationMark_required :
    (∀ (s : SerialState) (idx : Nat) (row : InspectionTableRow),
      pyStrip row.item_number ≠ "" →
      row.page_num ≠ s.lastPage →
      0 < s.lastPage →
      row.item_number = s.lastItem →
      row.is_first_row_in_page = true →
      ((serialStep s idx row).2.filter (fun e => e.errorCode == MISSING)) =
        (if row.has_continuation_mark = true then []
         else [mkMissingMarkError row])) ∧
    (∀ row : InspectionTableRow,
      (mkMissingMarkError row).details.lookup "expected_mark" =
        some (DetailValue.str ("续" ++ row.item_number))) ∧
    ((checkSerialNumberContinuity scenarioD_unmarked).filter
        (fun e => e.errorCode == MISSING)).map
        (fun e => e.details.lookup "expected_mark") = [some (DetailValue.str "续5")] ∧
    (checkSerialNumberContinuity scenarioD_marked).filter
        (fun e => e.errorCode == MISSING || e.errorCode == WRONG_POSITION) = [] := by
  refine ⟨?_, fun row => rfl, by decide, by decide⟩
  intro s idx row htrim hpage hlast hitem hfirst
  have hblank : ¬ (row.item_number = "" ∨ pyStrip row.item_number = "") := by
    rintro (h | h)
    · exact htrim (by simp [h, pyStrip])
    · exact htrim h
  simp only [serialStep, if_neg hblank]
  rw [List.filter_append, List.filter_append,
    filter_ifif_neg _ _ _
      (mkNotContinuousError row (s.seen.getLastD "")
        (extractNumber (s.seen.getLastD "")) (extractNumber row.item_number)) (by rfl),
    filter_ifsingle_pos _ _ (mkMissingMarkError row) (by rfl),
    filter_ifsingle_neg _ _ (mkWrongPositionError row idx) (by rfl),
    List.nil_append, List.append_nil]
  by_cases hm : row.has_continuation_mark = true
  · rw [if_pos hm, if_neg (fun hC => by simp [hm] at hC)]
  · have hm' : row.has_continuation_mark = false := by
      simpa using hm
    rw [if_neg hm, if_pos ⟨hpage, hlast, hitem, hfirst, hm'⟩]

/-- Witness for C5: applying the general rule at the state reached after
    item 5's page-1 row, to page 2's first row without a mark. -/
theorem continuationMark_required_witness :
    ((serialStep { seen := ["5"], lastPage := 1, lastItem := "5" } 1
        (serialRow "5" 2 true)).2.filter
        (fun e => e.errorCode == MISSING)) =
      [mkMissingMarkError (serialRow "5" 2 true)] := by
  have h := continuationMark_required.1
    { seen := ["5"], lastPage := 1, lastItem := "5" } 1 (serialRow "5" 2 true)
    (by decide) (by decide) (by decide) (by decide) (by decide)
  simpa using h

/-- A row with a continuation mark away from its page's first row. -/
def wrongPosRows : List InspectionTableRow :=
  [serialRow "5" 1 true,
   { serialRow "5" 1 false with original_item_number := "续5", has_continuation_mark := true }]

/-- Per-row WRONG_POSITION output of the serial scan: a non-blank-numbered
    row with a continuation mark away from its page's first row produces
    exactly the one error, every other row none. -/
theorem serialStep_wrongPos_filter (s : SerialState) (idx : Nat) (row : InspectionTableRow) :
    (serialStep s idx row).2.filter (fun e => e.errorCode == WRONG_POSITION) =
      (if pyStrip row.item_number ≠ "" ∧ row.has_continuation_mark = true ∧
          row.is_first_row_in_page = false
       then [mkWrongPositionError row idx] else []) := by
  by_cases hblank : row.item_number = "" ∨ pyStrip row.item_number = ""
  · have hs : pyStrip row.item_number = "" := by
      rcases hblank with h | h
      · rw [h]; rfl
      · exact h
    simp only [serialStep]
    rw [if_pos hblank, if_neg (fun hC => hC.1 hs)]
    rfl
  · have hstrip : pyStrip row.item_number ≠ "" := fun h => hblank (Or.inr h)
    simp only [serialStep, if_neg hblank]
    rw [List.filter_append, List.filter_append,
      filter_ifif_neg _ _ _
        (mkNotContinuousError row (s.seen.getLastD "")
          (extractNumber (s.seen.getLastD "")) (extractNumber row.item_number)) (by rfl),
      filter_ifsingle_neg _ _ (mkMissingMarkError row) (by rfl),
      filter_ifsingle_pos _ _ (mkWrongPositionError row idx) (by rfl),
      List.nil_append, List.nil_append]
    by_cases hC : row.has_continuation_mark = true ∧ row.is_first_row_in_page = false
    · rw [if_pos hC, if_pos ⟨hstrip, hC⟩]
    · rw [if_neg hC, if_neg (fun h => hC ⟨h.2.1, h.2.2⟩)]

/-- The WRONG_POSITION error count of the whole scan, for any starting state
    and index. -/
theorem checkSerialAux_wrongPos_count (rows : List InspectionTableRow) :
    ∀ (s : SerialState) (idx : Nat),
    ((checkSerialAux s idx rows).filter (fun e => e.errorCode == WRONG_POSITION)).length =
      rows.countP (fun r => decide (pyStrip r.item_number ≠ "") &&
        r.has_continuation_mark && !r.is_first_row_in_page) := by
  induction rows with
  | nil => intro s idx; rfl
  | cons row rest ih =>
    intro s idx
    simp only [checkSerialAux]
    rw [List.filter_append, List.length_append, ih, List.countP_cons,
      serialStep_wrongPos_filter]
    by_cases hC : pyStrip row.item_number ≠ "" ∧ row.has_continuation_mark = true ∧
        row.is_first_row_in_page = false
    · have hq : (decide (pyStrip row.item_number ≠ "") &&
          row.has_continuation_mark && !row.is_first_row_in_page) = true := by
        simp [hC.1, hC.2.1, hC.2.2]
      rw [if_pos hC, hq]
      simp [Nat.add_comm]
    · have hq : (decide (pyStrip row.item_number ≠ "") &&
          row.has_continuation_mark && !row.is_first_row_in_page) = false := by
        by_contra hq
        rw [Bool.not_eq_false, Bool.and_eq_true, Bool.and_eq_true] at hq
        exact hC ⟨by simpa using hq.1.1, hq.1.2, by simpa using hq.2⟩
      rw [if_neg hC, hq]
      simp

/-- C6: the validator's WRONG_POSITION errors are exactly one per row whose
    continuation mark sits away from its page's first row (counted over
    non-blank item numbers, which the continuation resolver guarantees for
    marked rows); rows whose mark is on the page's first row never receive
    one. -/
theorem wrongPosition_exact (rows : List InspectionTableRow) :
    ((checkSerialNumberContinuity rows).countP (fun e => e.errorCode == WRONG_POSITION) =
      rows.countP (fun r => decide (pyStrip r.item_number ≠ "") &&
        r.has_continuation_mark && !r.is_first_row_in_page)) ∧
    ((∀ r ∈ rows, r.has_continuation_mark = true → pyStrip r.item_number ≠ "") →
      (checkSerialNumberContinuity rows).countP (fun e => e.errorCode == WRONG_POSITION) =
        rows.countP (fun r => r.has_continuation_mark && !r.is_first_row_in_page)) ∧
    ((∀ r ∈ rows, r.has_continuation_mark = true → r.is_first_row_in_page = true) →
      (checkSerialNumberContinuity rows).countP (fun e => e.errorCode == WRONG_POSITION) = 0) := by
  have hmain : (checkSerialNumberContinuity rows).countP
      (fun e => e.errorCode == WRONG_POSITION) =
      rows.countP (fun r => decide (pyStrip r.item_number ≠ "") &&
        r.has_continuation_mark && !r.is_first_row_in_page) := by
    rw [List.countP_eq_length_filter, checkSerialNumberContinuity]
    by_cases h : rows = []
    · subst h; rfl
    · rw [if_neg h, checkSerialAux_wrongPos_count]
  refine ⟨hmain, fun hnb => ?_, fun hfr => ?_⟩
  · rw [hmain]
    apply List.countP_congr
    intro r hr
    by_cases hm : r.has_continuation_mark = true
    · simp [hm, hnb r hr hm]
    · have : r.has_continuation_mark = false := by simpa using hm
      simp [this]
  · rw [hmain]
    apply List.countP_eq_zero.mpr
    intro r hr
    by_cases hm : r.has_continuation_mark = true
    · simp [hm, hfr r hr hm]
    · have : r.has_continuation_mark = false := by simpa using hm
      simp [this]

/-- Witness for C6: a marked non-first row yields one WRONG_POSITION error,
    while the marked first row of scenario D yields none. -/
theorem wrongPosition_exact_witness :
    (checkSerialNumberContinuity wrongPosRows).countP
        (fun e => e.errorCode == WRONG_POSITION) = 1 ∧
    (checkSerialNumberContinuity scenarioD_marked).countP
        (fun e => e.errorCode == WRONG_POSITION) = 0 :=
  ⟨by rw [(wrongPosition_exact wrongPosRows).2.1 (by decide)]; decide,
   (wrongPosition_exact scenarioD_marked).2.2 (by decide)⟩

/-- Parent row with a blank inspection result. -/
def titleParentRow : InspectionTableRow :=
  { item_number := "3", item_name := "项目", clause_number := "4.1"
    requirement_text := "父行", inspection_result := "", conclusion := "", remark := ""
    page_num := 1 }

/-- Child row of the same (item, clause) group carrying the result. -/
def titleChildRow : InspectionTableRow :=
  { item_number := "3", item_name := "项目", clause_number := "4.1"
    requirement_text := "子行", inspection_result := "符合要求", conclusion := "符合", remark := "/"
    page_num := 1 }

/-- C8: a row that opens its (item, clause) group with a blank inspection
    result and is followed, before the key changes, by a same-key row with a
    non-blank result is skipped entirely by the non-empty-field validator —
    the scan of `row :: rest` equals the scan of `rest`; concretely the
    title parent/child pair yields zero errors. -/
theorem titleRow_skipped :
    (∀ (lastKey : Option String) (idx : Nat) (row : InspectionTableRow)
       (rest : List InspectionTableRow),
      some (rowKey row) ≠ lastKey →
      pyStrip row.inspection_result = "" →
      hasLaterResultRow (rowKey row) rest = true →
      checkNonEmptyFieldsAux lastKey idx (row :: rest) =
        checkNonEmptyFieldsAux (some (rowKey row)) (idx + 1) rest) ∧
    checkNonEmptyFields [titleParentRow, titleChildRow] = [] := by
  refine ⟨?_, by decide⟩
  intro lastKey idx row rest hfirst hblank hlater
  simp only [checkNonEmptyFieldsAux]
  rw [if_pos ⟨hfirst, Or.inr hblank, hlater⟩, List.nil_append]

/-- Witness for C8: applying the skip rule to the concrete parent row at the
    head of the title scenario. -/
theorem titleRow_skipped_witness :
    checkNonEmptyFieldsAux none 0 [titleParentRow, titleChildRow] =
      checkNonEmptyFieldsAux (some (rowKey titleParentRow)) 1 [titleChildRow] :=
  titleRow_skipped.1 none 0 titleParentRow [titleChildRow]
    (by decide) (by decide) (by decide)

/-- C9: the conclusion calculator depends only on the multiset of results —
    permuting the input list never changes the output — and both orders of
    the spec's example pair give "不符合". -/
theorem calcConclusion_permutation :
    (∀ l1 l2 : List String, l1.Perm l2 → calcConclusion l1 = calcConclusion l2) ∧
    calcConclusion ["不符合要求", "符合要求"] = "不符合" ∧
    calcConclusion ["符合要求", "不符合要求"] = "不符合" := by
  refine ⟨?_, by decide, by decide⟩
  intro l1 l2 h
  simp only [calcConclusion, any_perm _ h, all_perm _ h]

/-- Witness for C9: the concrete swap from the spec. -/
theorem calcConclusion_permutation_witness :
    calcConclusion ["不符合要求", "符合要求"] =
      calcConclusion ["符合要求", "不符合要求"] :=
  calcConclusion_permutation.1 _ _ (List.Perm.swap "符合要求" "不符合要求" [])

/-- C10: every assembled result satisfies the count invariant —
    `total_clauses` is the sum of per-item clause counts,
    `correct_conclusions` counts the clauses with a correct conclusion, and
    correct + incorrect = total — and in the `has_table = false` case all
    four counts are zero with empty item and error lists. -/
theorem checkInspectionItems_counts (numTables : Nat) (rows : List InspectionTableRow) :
    ((checkInspectionItems numTables rows).total_clauses =
      (((checkInspectionItems numTables rows).item_checks.map
        (fun item => item.clauses.length)).sum)) ∧
    ((checkInspectionItems numTables rows).correct_conclusions =
      (((checkInspectionItems numTables rows).item_checks.map
        (fun item => item.clauses.countP
          (fun clause => clause.is_conclusion_correct))).sum)) ∧
    ((checkInspectionItems numTables rows).correct_conclusions +
      (checkInspectionItems numTables rows).incorrect_conclusions =
      (checkInspectionItems numTables rows).total_clauses) ∧
    ((checkInspectionItems numTables rows).has_table = false →
      (checkInspectionItems numTables rows).total_items = 0 ∧
      (checkInspectionItems numTables rows).total_clauses = 0 ∧
      (checkInspectionItems numTables rows).correct_conclusions = 0 ∧
      (checkInspectionItems numTables rows).incorrect_conclusions = 0 ∧
      (checkInspectionItems numTables rows).item_checks = [] ∧
      (checkInspectionItems numTables rows).errors = []) := by
  by_cases h : numTables = 0
  · simp [checkInspectionItems, h]
  · refine ⟨?_, ?_, ?_, ?_⟩
    · simp [checkInspectionItems, if_neg h]
    · simp [checkInspectionItems, if_neg h]
    · simp only [checkInspectionItems, if_neg h]
      exact Nat.add_sub_cancel'
        (List.sum_le_sum (fun item _ => List.countP_le_length _))
    · simp [checkInspectionItems, if_neg h]

/-- Witness for C10: the empty-table case, with the `has_table = false`
    hypothesis discharged at `numTables = 0`. -/
theorem checkInspectionItems_counts_witness :
    (checkInspectionItems 0 []).total_items = 0 ∧
    (checkInspectionItems 0 []).total_clauses = 0 ∧
    (checkInspectionItems 0 []).correct_conclusions = 0 ∧
    (checkInspectionItems 0 []).incorrect_conclusions = 0 ∧
    (checkInspectionItems 0 []).item_checks = [] ∧
    (checkInspectionItems 0 []).errors = [] :=
  (checkInspectionItems_counts 0 []).2.2.2 (by decide)

end InspectionChecker
